import Mathlib

/-!
Shallow embedding of the minievent crate: thin wrappers around Windows
manual and auto reset events, counting semaphores, and multi-object waits.

The OS layer (the winapi calls `WaitForMultipleObjectsEx`,
`WaitForSingleObject`, `CreateEventA`, `CreateSemaphoreA`,
`ReleaseSemaphore`) lives outside this repository; every library function
that invokes it is embedded with the OS call abstracted as an explicit
oracle argument threaded through an abstract world-state type `σ`.  A
library function that returns before the OS call leaves the world state
unchanged and has a result independent of the oracle, which is how the
theorems below express "fails before issuing the blocking OS call, without
side effects".
-/

/-- Whole seconds and subsecond nanoseconds of a Rust standard library
duration value. -/
structure Duration where
  secs : Nat
  nanos : Nat
deriving DecidableEq

/-- Whole milliseconds of a duration, as the standard library computes them
(seconds times 1000 plus nanoseconds divided down to milliseconds). -/
def Duration.as_millis (d : Duration) : Nat :=
  d.secs * 1000 + d.nanos / 1000000

/-- Condition checked by the debug assertion guarding the millisecond
conversion in every wait entry point: the whole-millisecond value fits in
32 bits. -/
def msAssertCond (d : Duration) : Prop :=
  d.as_millis ≤ 4294967295

instance (d : Duration) : Decidable (msAssertCond d) :=
  inferInstanceAs (Decidable (d.as_millis ≤ 4294967295))

/-- Millisecond argument every wait entry point hands the OS: the
whole-millisecond value after the unchecked cast to a 32-bit unsigned
integer, which reduces it modulo 2^32. -/
def durationToMs (d : Duration) : Nat :=
  d.as_millis % 4294967296

/-- Windows wait return code for the first signaled object. -/
def WAIT_OBJECT_0 : Nat := 0

/-- Windows wait return code reporting an elapsed timeout. -/
def WAIT_TIMEOUT : Nat := 258

/-- Windows wait return code reporting a failed wait call. -/
def WAIT_FAILED : Nat := 4294967295

/-- Windows sentinel millisecond value requesting an unbounded wait. -/
def INFINITE : Nat := 4294967295

/-- Windows bound on the number of handles one composite wait accepts. -/
def MAXIMUM_WAIT_OBJECTS : Nat := 64

/-- Result of waiting on a single waitable, or on several when all must be
signaled. -/
inductive WaitableResult where
  | Signaled
  | Timeout
deriving DecidableEq

/-- Result of waiting on multiple waitables. -/
inductive WaitablesResult where
  | OneSignaled (idx : Nat)
  | AllSignaled
  | Timeout
deriving DecidableEq

/-- Waitable as the multi-object wait sees it: only the raw OS handle
(the `WaitableExt` view of an event or semaphore). -/
structure WaitableObj where
  handle : Nat
deriving DecidableEq

/-- Platform-specific maximum number of waitables accepted by one call to
`wait_for_all` / `wait_for_one`. -/
def max_num_waitables : Nat :=
  MAXIMUM_WAIT_OBJECTS

/-- Oracle standing for `WaitForMultipleObjectsEx`: handle count, handle
buffer, wait-for-all flag and millisecond timeout, yielding the OS result
code and the next world state. -/
abbrev OSMultiWait (σ : Type) : Type :=
  Nat → List Nat → Bool → Nat → σ → Nat × σ

/-- Handle buffer the implementation builds: a fixed 64-slot array holding
each waitable's handle at the waitable's position in the input slice, and
null handles in the remaining slots. -/
def handlesOf (ws : List WaitableObj) : List Nat :=
  ws.map WaitableObj.handle ++ List.replicate (MAXIMUM_WAIT_OBJECTS - ws.length) 0

/-- Shared implementation of both multi-wait entry points: reject slices
beyond the platform maximum, otherwise issue one composite OS wait over the
handle buffer and translate the result code. -/
def wait_for_waitables_impl {σ : Type} (ws : List WaitableObj) (d : Duration)
    (waitForAll : Bool) (os : OSMultiWait σ) (w : σ) :
    Except Unit WaitablesResult × σ :=
  if max_num_waitables < ws.length then (.error (), w)
  else
    let osCall := os ws.length (handlesOf ws) waitForAll (durationToMs d) w
    (if osCall.1 < WAIT_OBJECT_0 + ws.length then
       (if waitForAll then .ok .AllSignaled else .ok (.OneSignaled osCall.1))
     else if osCall.1 = WAIT_TIMEOUT then .ok .Timeout
     else .error (), osCall.2)

/-- Blocks until all waitables are signaled or the duration expires. -/
def wait_for_all {σ : Type} (ws : List WaitableObj) (d : Duration)
    (os : OSMultiWait σ) (w : σ) : Except Unit WaitableResult × σ :=
  let r := wait_for_waitables_impl ws d true os w
  (match r.1 with
   | .ok .AllSignaled => .ok .Signaled
   | .ok .Timeout => .ok .Timeout
   | _ => .error (), r.2)

/-- Blocks until at least one waitable is signaled or the duration
expires. -/
def wait_for_one {σ : Type} (ws : List WaitableObj) (d : Duration)
    (os : OSMultiWait σ) (w : σ) : Except Unit WaitablesResult × σ :=
  wait_for_waitables_impl ws d false os w

/-- Errors reported by the event wrapper; the payload is the raw OS error
code carried by the io error value. -/
inductive EventError where
  | FailedToCreate (cause : Nat)
  | InvalidName
  | FailedToSet (cause : Nat)
  | FailedToReset (cause : Nat)
  | FailedToWait (cause : Nat)
deriving DecidableEq

/-- Waitable event wrapper: owns the raw OS handle. -/
structure Event where
  handle : Nat
deriving DecidableEq

/-- CString construction from the name's bytes: fails exactly when a nul
byte is present anywhere in the string. -/
def cstringNew (bytes : List Nat) : Option (List Nat) :=
  if bytes.contains 0 then none else some bytes

/-- Name-argument preparation in the event constructor: an absent or empty
name becomes a null pointer, a nonempty name goes through CString
construction and an invalid name is rejected before any platform call. -/
def eventNameArg (name : Option (List Nat)) :
    Except EventError (Option (List Nat)) :=
  match name with
  | some bs =>
    if 0 < bs.length then
      match cstringNew bs with
      | none => .error .InvalidName
      | some cs => .ok (some cs)
    else .ok none
  | none => .ok none

/-- Oracle standing for `CreateEventA`: manual-reset flag, initial-state
flag and name pointer (`none` is the null pointer), yielding the created
handle (`none` for a null handle) paired with the last OS error code, and
the next world state. -/
abbrev OSCreateEvent (σ : Type) : Type :=
  Bool → Bool → Option (List Nat) → σ → (Option Nat × Nat) × σ

/-- Event constructor: validate the name, then ask the platform to create
(or reuse) the underlying object. -/
def Event.new {σ : Type} (manual initState : Bool) (name : Option (List Nat))
    (os : OSCreateEvent σ) (w : σ) : Except EventError Event × σ :=
  match eventNameArg name with
  | .error e => (.error e, w)
  | .ok nm =>
    let osCall := os manual initState nm w
    (match osCall.1.1 with
     | none => .error (.FailedToCreate osCall.1.2)
     | some h => .ok ⟨h⟩, osCall.2)

/-- Creates a new auto-reset event. -/
def Event.new_auto {σ : Type} (initState : Bool) (name : Option (List Nat))
    (os : OSCreateEvent σ) (w : σ) : Except EventError Event × σ :=
  Event.new false initState name os w

/-- Creates a new manual-reset event. -/
def Event.new_manual {σ : Type} (initState : Bool) (name : Option (List Nat))
    (os : OSCreateEvent σ) (w : σ) : Except EventError Event × σ :=
  Event.new true initState name os w

/-- Oracle standing for `WaitForSingleObject`: handle and millisecond
timeout, yielding the OS result code paired with the last OS error code,
and the next world state. -/
abbrev OSWaitSingle (σ : Type) : Type :=
  Nat → Nat → σ → (Nat × Nat) × σ

/-- Single-object wait behind the event's `Waitable` implementation. -/
def Event.wait_impl {σ : Type} (e : Event) (ms : Nat) (os : OSWaitSingle σ)
    (w : σ) : Except EventError WaitableResult × σ :=
  let osCall := os e.handle ms w
  (if osCall.1.1 = WAIT_OBJECT_0 then .ok .Signaled
   else if osCall.1.1 = WAIT_TIMEOUT then .ok .Timeout
   else .error (.FailedToWait osCall.1.2), osCall.2)

/-- Blocks until the event is set or the duration expires. -/
def Event.wait {σ : Type} (e : Event) (d : Duration) (os : OSWaitSingle σ)
    (w : σ) : Except Unit WaitableResult × σ :=
  let r := Event.wait_impl e (durationToMs d) os w
  (Except.mapError (fun _ => ()) r.1, r.2)

/-- Blocks until the event is set, with the unbounded-wait sentinel. -/
def Event.wait_infinite {σ : Type} (e : Event) (os : OSWaitSingle σ)
    (w : σ) : Except Unit Unit × σ :=
  let r := Event.wait_impl e INFINITE os w
  (Except.mapError (fun _ => ()) (Except.map (fun _ => ()) r.1), r.2)

/-- Errors reported by the semaphore wrapper; the payload is the raw OS
error code carried by the io error value. -/
inductive SemaphoreError where
  | FailedToCreate (cause : Nat)
  | InvalidName
  | FailedToIncrement (cause : Nat)
  | FailedToWait (cause : Nat)
deriving DecidableEq

/-- Waitable semaphore wrapper: owns the raw OS handle. -/
structure Semaphore where
  handle : Nat
deriving DecidableEq

/-- Name-argument preparation in the semaphore constructor, identical in
shape to the event constructor's. -/
def semNameArg (name : Option (List Nat)) :
    Except SemaphoreError (Option (List Nat)) :=
  match name with
  | some bs =>
    if 0 < bs.length then
      match cstringNew bs with
      | none => .error .InvalidName
      | some cs => .ok (some cs)
    else .ok none
  | none => .ok none

/-- Oracle standing for `CreateSemaphoreA`: initial count, maximum count
and name pointer, yielding the created handle paired with the last OS
error code, and the next world state.  The counts reach the platform as
its native integer arguments; the FFI-level 32-bit reinterpretation is
part of the OS plumbing the oracle abstracts. -/
abbrev OSCreateSemaphore (σ : Type) : Type :=
  Nat → Nat → Option (List Nat) → σ → (Option Nat × Nat) × σ

/-- Semaphore constructor: clamp the initial count to the maximum count,
validate the name, then ask the platform to create (or reuse) the
underlying object. -/
def Semaphore.new {σ : Type} (initCount maxCount : Nat)
    (name : Option (List Nat)) (os : OSCreateSemaphore σ) (w : σ) :
    Except SemaphoreError Semaphore × σ :=
  let initCount := min initCount maxCount
  match semNameArg name with
  | .error e => (.error e, w)
  | .ok nm =>
    let osCall := os initCount maxCount nm w
    (match osCall.1.1 with
     | none => .error (.FailedToCreate osCall.1.2)
     | some h => .ok ⟨h⟩, osCall.2)

/-- Platform-side state of one semaphore object: the current counter and
the ceiling fixed at creation. -/
structure SemState where
  count : Nat
  maxCount : Nat
deriving DecidableEq

/-- Windows error code reported when an increment would take a semaphore
counter past its maximum. -/
def ERROR_TOO_MANY_POSTS : Nat := 298

/-- Windows error code reported when a call receives an argument outside
its documented domain, such as a non-positive semaphore release count. -/
def ERROR_INVALID_PARAMETER : Nat := 87

/-- Wrapping cast from the unsigned machine-word count to the platform's
signed 32-bit release-count argument: reduce modulo 2^32, then reinterpret
the high range as negative. -/
def usizeToI32 (n : Nat) : Int :=
  if n % 4294967296 < 2147483648 then ((n % 4294967296 : Nat) : Int)
  else ((n % 4294967296 : Nat) : Int) - 4294967296

/-- Modelled from the spec: the platform `ReleaseSemaphore` capability (the
winapi call itself is outside this repository).  Following the spec's
increment contract and the platform documentation it points at: a
non-positive release count is rejected outright, an increment whose result
would exceed the maximum fails with the overflow error code and no state
change at all, and on success the counter value prior to the increment is
reported through the out parameter. -/
def ReleaseSemaphore (s : SemState) (releaseCount : Int) :
    (Bool × Nat × Nat) × SemState :=
  if releaseCount ≤ 0 then ((false, 0, ERROR_INVALID_PARAMETER), s)
  else if (s.maxCount : Int) < (s.count : Int) + releaseCount then
    ((false, 0, ERROR_TOO_MANY_POSTS), s)
  else
    ((true, s.count, 0), ⟨s.count + releaseCount.toNat, s.maxCount⟩)

/-- Increments the semaphore's internal counter, acting directly on the
platform-side counter state its handle designates.  The count reaches the
platform through the wrapping cast to its signed 32-bit argument. -/
def Semaphore.increment (s : SemState) (count : Nat) :
    Except SemaphoreError Nat × SemState :=
  let osCall := ReleaseSemaphore s (usizeToI32 count)
  (if osCall.1.1 then .ok osCall.1.2.1
   else .error (.FailedToIncrement osCall.1.2.2), osCall.2)

/-- Increments the semaphore's internal counter by one. -/
def Semaphore.increment_one (s : SemState) :
    Except SemaphoreError Nat × SemState :=
  Semaphore.increment s 1

/-- Single-object wait behind the semaphore's `Waitable` implementation. -/
def Semaphore.wait_impl {σ : Type} (s : Semaphore) (ms : Nat)
    (os : OSWaitSingle σ) (w : σ) : Except SemaphoreError WaitableResult × σ :=
  let osCall := os s.handle ms w
  (if osCall.1.1 = WAIT_OBJECT_0 then .ok .Signaled
   else if osCall.1.1 = WAIT_TIMEOUT then .ok .Timeout
   else .error (.FailedToWait osCall.1.2), osCall.2)

/-- Blocks until the semaphore is incremented or the duration expires. -/
def Semaphore.wait {σ : Type} (s : Semaphore) (d : Duration)
    (os : OSWaitSingle σ) (w : σ) : Except Unit WaitableResult × σ :=
  let r := Semaphore.wait_impl s (durationToMs d) os w
  (Except.mapError (fun _ => ()) r.1, r.2)

/-- Blocks until the semaphore is incremented, with the unbounded-wait
sentinel. -/
def Semaphore.wait_infinite {σ : Type} (s : Semaphore) (os : OSWaitSingle σ)
    (w : σ) : Except Unit Unit × σ :=
  let r := Semaphore.wait_impl s INFINITE os w
  (Except.mapError (fun _ => ()) (Except.map (fun _ => ()) r.1), r.2)

/-- Composite-wait oracle returning a fixed result code and leaving the
world unchanged. -/
def constMultiOS (code : Nat) : OSMultiWait Unit :=
  fun _ _ _ _ w => (code, w)

/-- Single-wait oracle returning a fixed result code and leaving the world
unchanged. -/
def constSingleOS (code : Nat) : OSWaitSingle Unit :=
  fun _ _ w => ((code, 0), w)

/-- Single-wait oracle recording in the world the millisecond argument it
was handed, while reporting a signaled object. -/
def recordMsSingleOS : OSWaitSingle Nat :=
  fun _ ms _ => ((WAIT_OBJECT_0, 0), ms)

/-- Composite-wait oracle recording in the world the millisecond argument
it was handed, while reporting a timeout. -/
def recordMsMultiOS : OSMultiWait Nat :=
  fun _ _ _ ms _ => (WAIT_TIMEOUT, ms)

/-- Composite-wait oracle reporting a failed wait call. -/
def failMultiOS : OSMultiWait Unit :=
  fun _ _ _ _ w => (WAIT_FAILED, w)

/-- Event-creation oracle handing out a fixed handle. -/
def constCreateEventOS : OSCreateEvent Unit :=
  fun _ _ _ w => ((some 3, 0), w)

/-- Semaphore-creation oracle handing out a fixed handle. -/
def constCreateSemOS : OSCreateSemaphore Unit :=
  fun _ _ _ w => ((some 4, 0), w)

/-- C3: a slice strictly longer than `max_num_waitables` (64 on Windows)
makes both multi-wait entry points fail immediately with the capacity
error: the result is the error value for every oracle and the world state
is returned untouched, so the blocking OS wait is never issued and no
supplied waitable's state is consumed. -/
theorem c3_capacity_reject {σ : Type} (ws : List WaitableObj) (d : Duration)
    (os : OSMultiWait σ) (w : σ) (h : max_num_waitables < ws.length) :
    max_num_waitables = 64 ∧
    wait_for_all ws d os w = (.error (), w) ∧
    wait_for_one ws d os w = (.error (), w) := by
  refine ⟨rfl, ?_, ?_⟩ <;>
    simp [wait_for_all, wait_for_one, wait_for_waitables_impl, if_pos h]

/-- C3 witness: sixty-five waitables are rejected by both entry points with
the world untouched. -/
theorem c3_capacity_reject_witness :
    wait_for_all (List.replicate 65 (⟨0⟩ : WaitableObj)) ⟨0, 0⟩
        (constMultiOS 0) () = (.error (), ()) ∧
    wait_for_one (List.replicate 65 (⟨0⟩ : WaitableObj)) ⟨0, 0⟩
        (constMultiOS 0) () = (.error (), ()) :=
  ⟨(c3_capacity_reject (List.replicate 65 ⟨0⟩) ⟨0, 0⟩ (constMultiOS 0) ()
      (by decide)).2.1,
   (c3_capacity_reject (List.replicate 65 ⟨0⟩) ⟨0, 0⟩ (constMultiOS 0) ()
      (by decide)).2.2⟩

/-- C8: an empty name string behaves exactly like no name at all in every
constructor: the name argument prepared for the platform call is the null
pointer, and the construction results coincide for every oracle and world
state. -/
theorem c8_empty_name {σ σ2 : Type} (manual initState : Bool)
    (initCount maxCount : Nat) (os : OSCreateEvent σ) (w : σ)
    (os2 : OSCreateSemaphore σ2) (w2 : σ2) :
    eventNameArg (some []) = .ok none ∧
    semNameArg (some []) = .ok none ∧
    Event.new manual initState (some []) os w
      = Event.new manual initState none os w ∧
    Event.new_auto initState (some []) os w
      = Event.new_auto initState none os w ∧
    Event.new_manual initState (some []) os w
      = Event.new_manual initState none os w ∧
    Semaphore.new initCount maxCount (some []) os2 w2
      = Semaphore.new initCount maxCount none os2 w2 :=
  ⟨rfl, rfl, rfl, rfl, rfl, rfl⟩

/-- C9: the empty slice passes the length check, and a zero-handle-count
composite wait is forwarded to the OS: the outcome is exactly the
translation of whatever result code the platform reports (timeout sentinel
to Timeout, anything else — no index can be in range — to the error), and
with the code Windows reports for a zero-handle wait the entry points
return the error. -/
theorem c9_empty_slice {σ : Type} (d : Duration) (os : OSMultiWait σ) (w : σ) :
    wait_for_one [] d os w
      = ((if (os 0 (List.replicate 64 0) false (durationToMs d) w).1
            = WAIT_TIMEOUT
          then .ok .Timeout else .error ()),
         (os 0 (List.replicate 64 0) false (durationToMs d) w).2) ∧
    wait_for_all [] d os w
      = ((if (os 0 (List.replicate 64 0) true (durationToMs d) w).1
            = WAIT_TIMEOUT
          then .ok .Timeout else .error ()),
         (os 0 (List.replicate 64 0) true (durationToMs d) w).2) ∧
    (wait_for_one [] d failMultiOS ()).1 = .error () ∧
    (wait_for_all [] d failMultiOS ()).1 = .error () := by
  refine ⟨rfl, ?_, rfl, rfl⟩
  have hall : wait_for_all [] d os w
      = (match (if (os 0 (List.replicate 64 0) true (durationToMs d) w).1
                  = WAIT_TIMEOUT
                then Except.ok WaitablesResult.Timeout else Except.error ()) with
         | .ok .AllSignaled => Except.ok WaitableResult.Signaled
         | .ok .Timeout => Except.ok WaitableResult.Timeout
         | _ => Except.error (),
         (os 0 (List.replicate 64 0) true (durationToMs d) w).2) := rfl
  rw [hall]
  by_cases hc : (os 0 (List.replicate 64 0) true (durationToMs d) w).1
      = WAIT_TIMEOUT
  · rw [if_pos hc, if_pos hc]
  · rw [if_neg hc, if_neg hc]

/-- C5 counterexample: at count 4294967299 (2^32 plus 3) on an empty
semaphore with maximum 10 the claim's overflow condition holds (0 + count
exceeds 10), yet the wrapping cast to the platform's signed 32-bit
release-count argument turns the count into 3, so the increment succeeds,
changes the counter to 3 and returns the prior count 0 — neither the
distinguished overflow failure nor an unchanged counter. -/
theorem c5_increment_wrap_counterexample :
    (10 : Nat) < 0 + 4294967299 ∧
    Semaphore.increment ⟨0, 10⟩ 4294967299 = (.ok 0, ⟨3, 10⟩) :=
  ⟨by decide, rfl⟩

/-- C5 amended: for a nonzero count below 2^31 — exactly the counts the
cast to the platform's signed 32-bit release-count argument passes through
unchanged — an increment that would take the counter past its maximum
fails with the overflow cause (the fixed code `ERROR_TOO_MANY_POSTS`)
inside `FailedToIncrement`, leaving the counter entirely unchanged, and a
successful increment returns the counter value immediately prior to the
increment. -/
theorem c5_increment_overflow (s : SemState) (c : Nat) (hpos : 0 < c)
    (hrep : c < 2147483648) :
    (s.maxCount < s.count + c →
       Semaphore.increment s c
         = (.error (.FailedToIncrement ERROR_TOO_MANY_POSTS), s)) ∧
    (s.count + c ≤ s.maxCount →
       Semaphore.increment s c = (.ok s.count, ⟨s.count + c, s.maxCount⟩)) := by
  have hcast : usizeToI32 c = (c : Int) := by
    unfold usizeToI32
    rw [Nat.mod_eq_of_lt (by omega)]
    rw [if_pos hrep]
  have h1 : ¬ ((c : Int) ≤ 0) := by omega
  constructor <;> intro h
  · have h2 : (s.maxCount : Int) < (s.count : Int) + (c : Int) := by omega
    unfold Semaphore.increment ReleaseSemaphore
    rw [hcast, if_neg h1, if_pos h2]
    rfl
  · have h2 : ¬ ((s.maxCount : Int) < (s.count : Int) + (c : Int)) := by omega
    unfold Semaphore.increment ReleaseSemaphore
    rw [hcast, if_neg h1, if_neg h2]
    simp

/-- C5 witness: on a full semaphore with maximum one, an increment by one
fails with the overflow cause and an unchanged counter, and on the empty
one it succeeds returning the prior count zero. -/
theorem c5_increment_overflow_witness :
    Semaphore.increment ⟨1, 1⟩ 1
      = (.error (.FailedToIncrement ERROR_TOO_MANY_POSTS), ⟨1, 1⟩) ∧
    Semaphore.increment ⟨0, 1⟩ 1 = (.ok 0, ⟨1, 1⟩) :=
  ⟨(c5_increment_overflow ⟨1, 1⟩ 1 (by decide) (by decide)).1 (by decide),
   (c5_increment_overflow ⟨0, 1⟩ 1 (by decide) (by decide)).2 (by decide)⟩

/-- C6: semaphore construction clamps the initial count into the interval
from zero to the maximum count: constructing with any initial count is the
same as constructing with the smaller of the two, and with no name the
constructor always proceeds to the platform creation call with the clamped
initial count — it neither rejects nor panics on an initial count above
the maximum. -/
theorem c6_new_clamps {σ : Type} (initCount maxCount : Nat)
    (name : Option (List Nat)) (os : OSCreateSemaphore σ) (w : σ) :
    Semaphore.new initCount maxCount name os w
      = Semaphore.new (min initCount maxCount) maxCount name os w ∧
    Semaphore.new initCount maxCount none os w
      = ((match (os (min initCount maxCount) maxCount none w).1.1 with
          | none => .error
              (.FailedToCreate ((os (min initCount maxCount) maxCount none w).1.2))
          | some h => .ok ⟨h⟩),
         (os (min initCount maxCount) maxCount none w).2) := by
  constructor
  · simp [Semaphore.new, Nat.min_assoc]
  · rfl

/-- C1: for a slice within the platform maximum the handle buffer holds the
waitables' handles in slice order (so the OS index is the slice position),
and a successful `wait_for_one` is either Timeout or OneSignaled carrying
an index strictly below the slice length; AllSignaled is never produced. -/
theorem c1_wait_for_one_result {σ : Type} (ws : List WaitableObj) (d : Duration)
    (os : OSMultiWait σ) (w : σ) (h : ws.length ≤ max_num_waitables) :
    (handlesOf ws).take ws.length = ws.map WaitableObj.handle ∧
    ∀ r w', wait_for_one ws d os w = (.ok r, w') →
      r = .Timeout ∨ ∃ i, i < ws.length ∧ r = .OneSignaled i := by
  constructor
  · exact List.take_left' (List.length_map ws WaitableObj.handle)
  · intro r w' hr
    unfold wait_for_one wait_for_waitables_impl at hr
    rw [if_neg (Nat.not_lt.mpr h)] at hr
    simp only [WAIT_OBJECT_0, Nat.zero_add, Bool.false_eq_true, if_false] at hr
    split at hr
    · rename_i hlt
      right
      simp only [Prod.mk.injEq, Except.ok.injEq] at hr
      exact ⟨_, hlt, hr.1.symm⟩
    · rename_i hge
      split at hr
      · left
        simp only [Prod.mk.injEq, Except.ok.injEq] at hr
        exact hr.1.symm
      · simp at hr

/-- C1 witness: with two waitables and the OS reporting index one, the
buffer holds the two handles in order and the result is OneSignaled with a
valid index. -/
theorem c1_wait_for_one_result_witness :
    (handlesOf [⟨5⟩, ⟨7⟩]).take ([⟨5⟩, ⟨7⟩] : List WaitableObj).length
      = ([⟨5⟩, ⟨7⟩] : List WaitableObj).map WaitableObj.handle ∧
    (WaitablesResult.OneSignaled 1 = .Timeout ∨
      ∃ i, i < ([⟨5⟩, ⟨7⟩] : List WaitableObj).length ∧
        WaitablesResult.OneSignaled 1 = .OneSignaled i) :=
  ⟨(c1_wait_for_one_result [⟨5⟩, ⟨7⟩] ⟨0, 0⟩ (constMultiOS 1) () (by decide)).1,
   (c1_wait_for_one_result [⟨5⟩, ⟨7⟩] ⟨0, 0⟩ (constMultiOS 1) () (by decide)).2
     (.OneSignaled 1) () rfl⟩

/-- C2: for a slice within the platform maximum, `wait_for_all` returns
Signaled exactly when the shared implementation reports AllSignaled (the
collapse of the internal outcome), returns Timeout exactly when the OS
reports the timeout sentinel, and returns the error for every other OS
outcome. -/
theorem c2_wait_for_all_result {σ : Type} (ws : List WaitableObj) (d : Duration)
    (os : OSMultiWait σ) (w : σ) (h : ws.length ≤ max_num_waitables) :
    ((wait_for_all ws d os w).1 = .ok .Signaled ↔
       (wait_for_waitables_impl ws d true os w).1 = .ok .AllSignaled) ∧
    ((wait_for_all ws d os w).1 = .ok .Timeout ↔
       (os ws.length (handlesOf ws) true (durationToMs d) w).1 = WAIT_TIMEOUT) ∧
    (ws.length ≤ (os ws.length (handlesOf ws) true (durationToMs d) w).1 →
       (os ws.length (handlesOf ws) true (durationToMs d) w).1 ≠ WAIT_TIMEOUT →
       (wait_for_all ws d os w).1 = .error ()) := by
  have hmatch : (wait_for_all ws d os w).1
      = (match (wait_for_waitables_impl ws d true os w).1 with
         | .ok .AllSignaled => Except.ok WaitableResult.Signaled
         | .ok .Timeout => Except.ok WaitableResult.Timeout
         | _ => Except.error ()) := rfl
  have himpl : (wait_for_waitables_impl ws d true os w).1
      = (if (os ws.length (handlesOf ws) true (durationToMs d) w).1
            < WAIT_OBJECT_0 + ws.length then Except.ok WaitablesResult.AllSignaled
         else if (os ws.length (handlesOf ws) true (durationToMs d) w).1
            = WAIT_TIMEOUT then Except.ok WaitablesResult.Timeout
         else Except.error ()) := by
    unfold wait_for_waitables_impl
    rw [if_neg (Nat.not_lt.mpr h)]
    rfl
  rw [hmatch, himpl]
  have hb : max_num_waitables = 64 := rfl
  by_cases hlt : (os ws.length (handlesOf ws) true (durationToMs d) w).1
      < WAIT_OBJECT_0 + ws.length
  · have hne : (os ws.length (handlesOf ws) true (durationToMs d) w).1
        ≠ WAIT_TIMEOUT := by
      simp only [WAIT_OBJECT_0, Nat.zero_add] at hlt
      simp only [WAIT_TIMEOUT]
      omega
    rw [if_pos hlt]
    refine ⟨by simp, ?_, ?_⟩
    · simp [hne]
    · intro hle _
      simp only [WAIT_OBJECT_0, Nat.zero_add] at hlt
      omega
  · rw [if_neg hlt]
    by_cases ht : (os ws.length (handlesOf ws) true (durationToMs d) w).1
        = WAIT_TIMEOUT
    · rw [if_pos ht]
      refine ⟨by simp, by simp [ht], ?_⟩
      intro _ hne
      exact absurd ht hne
    · rw [if_neg ht]
      refine ⟨by simp, by simp [ht], fun _ _ => rfl⟩

/-- C2 witness: one waitable, OS reporting index zero: the all-mode wait
returns Signaled and the implementation reports AllSignaled. -/
theorem c2_wait_for_all_result_witness :
    (wait_for_all ([⟨5⟩] : List WaitableObj) ⟨0, 0⟩ (constMultiOS 0) ()).1
      = .ok .Signaled :=
  ((c2_wait_for_all_result [⟨5⟩] ⟨0, 0⟩ (constMultiOS 0) () (by decide)).1).mpr rfl

/-- C7: a nonempty name containing a nul byte makes every event constructor
and the semaphore constructor fail with InvalidName, with the world state
returned untouched and the result independent of the creation oracle — the
platform creation call is never made. -/
theorem c7_invalid_name {σ σ2 : Type} (bs : List Nat)
    (hnul : bs.contains 0 = true) (manual initState : Bool)
    (initCount maxCount : Nat) (os : OSCreateEvent σ) (w : σ)
    (os2 : OSCreateSemaphore σ2) (w2 : σ2) :
    Event.new manual initState (some bs) os w = (.error .InvalidName, w) ∧
    Event.new_auto initState (some bs) os w = (.error .InvalidName, w) ∧
    Event.new_manual initState (some bs) os w = (.error .InvalidName, w) ∧
    Semaphore.new initCount maxCount (some bs) os2 w2
      = (.error .InvalidName, w2) := by
  have hlen : 0 < bs.length := by
    cases bs with
    | nil => simp [List.contains] at hnul
    | cons a l => simp
  have hmem : 0 ∈ bs := by simpa using hnul
  have hev : eventNameArg (some bs) = .error .InvalidName := by
    simp [eventNameArg, cstringNew, hmem, hlen]
  have hsem : semNameArg (some bs) = .error .InvalidName := by
    simp [semNameArg, cstringNew, hmem, hlen]
  refine ⟨?_, ?_, ?_, ?_⟩
  · simp [Event.new, hev]
  · simp [Event.new_auto, Event.new, hev]
  · simp [Event.new_manual, Event.new, hev]
  · simp [Semaphore.new, hsem]

/-- C7 witness: the two-byte name with an embedded nul is rejected with
InvalidName by all constructors without touching the world. -/
theorem c7_invalid_name_witness :
    Event.new true true (some [65, 0]) constCreateEventOS ()
      = (.error .InvalidName, ()) ∧
    Event.new_auto true (some [65, 0]) constCreateEventOS ()
      = (.error .InvalidName, ()) ∧
    Event.new_manual true (some [65, 0]) constCreateEventOS ()
      = (.error .InvalidName, ()) ∧
    Semaphore.new 1 2 (some [65, 0]) constCreateSemOS ()
      = (.error .InvalidName, ()) :=
  c7_invalid_name [65, 0] (by decide) true true 1 2 constCreateEventOS ()
    constCreateSemOS ()

/-- C4 counterexample: at 4294967296 whole milliseconds (one past the
32-bit range) the event wait neither rejects the duration nor saturates the
millisecond value to the representable maximum: the OS wait receives 0
milliseconds (the value reduced modulo 2^32) and the call proceeds,
returning the OS outcome. -/
theorem c4_truncation_counterexample :
    4294967295 < (Duration.mk 4294967 296000000).as_millis ∧
    durationToMs ⟨4294967, 296000000⟩ = 0 ∧
    (0 : Nat) ≠ 4294967295 ∧
    Event.wait ⟨1⟩ ⟨4294967, 296000000⟩ recordMsSingleOS 0
      = (.ok .Signaled, 0) := by
  refine ⟨by decide, by decide, by decide, rfl⟩

/-- C4 amended: a duration whose whole-millisecond value exceeds the 32-bit
range fails the debug assertion (so debug builds panic), and is otherwise
neither rejected nor saturated: Event wait, Semaphore wait and the
multi-wait operations all hand the OS the millisecond value reduced modulo
2^32 and proceed with the OS outcome. -/
theorem c4_ms_truncation (d : Duration) (h : 4294967295 < d.as_millis) :
    ¬ msAssertCond d ∧
    durationToMs d = d.as_millis % 4294967296 ∧
    (∀ e : Event, Event.wait e d recordMsSingleOS 0
       = (.ok .Signaled, d.as_millis % 4294967296)) ∧
    (∀ s : Semaphore, Semaphore.wait s d recordMsSingleOS 0
       = (.ok .Signaled, d.as_millis % 4294967296)) ∧
    (∀ ws : List WaitableObj,
       (wait_for_one ws d recordMsMultiOS 0).1 = .error () ∨
       (wait_for_one ws d recordMsMultiOS 0).2 = d.as_millis % 4294967296) := by
  refine ⟨?_, rfl, fun e => rfl, fun s => rfl, ?_⟩
  · intro hc
    exact absurd hc (by unfold msAssertCond; omega)
  · intro ws
    by_cases hl : max_num_waitables < ws.length
    · left
      unfold wait_for_one wait_for_waitables_impl
      rw [if_pos hl]
    · right
      unfold wait_for_one wait_for_waitables_impl
      rw [if_neg hl]
      rfl

/-- C4 amended witness: the concrete duration one past the 32-bit range
fails the assertion and reaches the OS as 0 milliseconds. -/
theorem c4_ms_truncation_witness :
    ¬ msAssertCond ⟨4294967, 296000000⟩ ∧
    Event.wait ⟨1⟩ ⟨4294967, 296000000⟩ recordMsSingleOS 0
      = (.ok .Signaled, (Duration.mk 4294967 296000000).as_millis % 4294967296) :=
  ⟨(c4_ms_truncation ⟨4294967, 296000000⟩ (by decide)).1,
   (c4_ms_truncation ⟨4294967, 296000000⟩ (by decide)).2.2.1 ⟨1⟩⟩

/-- C10: a duration whose whole-millisecond value reduced to 32 bits equals
the maximum (4294967295) makes every wait entry point hand the OS exactly
the INFINITE sentinel — the same value the unbounded wait passes — so the
OS blocks indefinitely instead of timing out; and for the in-range instance
of exactly 4294967295 milliseconds the debug assertion passes, so it does
not exclude this case. -/
theorem c10_infinite_collision (d : Duration)
    (h : d.as_millis % 4294967296 = 4294967295) :
    durationToMs d = INFINITE ∧
    (∀ e : Event, (Event.wait e d recordMsSingleOS 0).2 = INFINITE ∧
       (Event.wait_infinite e recordMsSingleOS 0).2 = INFINITE) ∧
    (∀ s : Semaphore, (Semaphore.wait s d recordMsSingleOS 0).2 = INFINITE ∧
       (Semaphore.wait_infinite s recordMsSingleOS 0).2 = INFINITE) ∧
    (∀ ws : List WaitableObj, ws.length ≤ max_num_waitables →
       (wait_for_one ws d recordMsMultiOS 0).2 = INFINITE) ∧
    (d.as_millis = 4294967295 → msAssertCond d) := by
  have hms : durationToMs d = INFINITE := by
    unfold durationToMs INFINITE
    omega
  refine ⟨hms, fun e => ⟨?_, rfl⟩, fun s => ⟨?_, rfl⟩, ?_, ?_⟩
  · show durationToMs d = INFINITE
    exact hms
  · show durationToMs d = INFINITE
    exact hms
  · intro ws hl
    unfold wait_for_one wait_for_waitables_impl
    rw [if_neg (Nat.not_lt.mpr hl)]
    exact hms
  · intro he
    unfold msAssertCond
    omega

/-- C10 witness: a requested finite timeout of exactly 4294967295
milliseconds passes the debug assertion yet is handed to the OS as the
INFINITE sentinel. -/
theorem c10_infinite_collision_witness :
    durationToMs ⟨4294967, 295000000⟩ = INFINITE ∧
    msAssertCond ⟨4294967, 295000000⟩ ∧
    (Event.wait ⟨1⟩ ⟨4294967, 295000000⟩ recordMsSingleOS 0).2 = INFINITE :=
  ⟨(c10_infinite_collision ⟨4294967, 295000000⟩ (by decide)).1,
   (c10_infinite_collision ⟨4294967, 295000000⟩ (by decide)).2.2.2.2 (by decide),
   ((c10_infinite_collision ⟨4294967, 295000000⟩ (by decide)).2.1 ⟨1⟩).1⟩
